import Mathlib

/-!
Shallow embedding of the ZeroKachra campus waste-complaint tracker
(React/TypeScript single-page application) and proofs about its
complaint-lifecycle, gamification and analytics logic.

The embedding follows the source files:
* `src/App.tsx` — the complaint collection and its mutation handlers
  (`handleAddComplaint`, `handleVote`, `handleUpdateComplaintStatus`,
  `handleDeleteComplaint`, `handleRestoreComplaint`, `handlePermanentDelete`,
  `handleVerifyAuthenticity`, `handleAdminVerify`);
* `src/components/ComplaintForm.tsx` — `processSubmission` / `handleSubmit`;
* `src/components/ChatAssistant.tsx` — `handleToolCall` for `create_complaint`;
* `src/services/geminiService.ts` — `verifyComplaintAuthenticity`;
* `src/components/Dashboard.tsx` — the gamification view (`sortedUsers`)
  and the analytics aggregator (`analyticsMetrics`).

Timestamps (`Date.now()`, `new Date()`) are millisecond counts modelled as
`Nat`; JavaScript `undefined` for optional fields is `Option.none`; the
complaint collection is a `List Complaint` with the newest element at
the head, exactly as in the React state array.
-/

namespace ZeroKachra

/-- Complaint status enum from `src/types.ts` (`Status`). -/
inductive Status where
  | Pending
  | InProgress
  | Resolved
deriving DecidableEq, Repr

/-- Authenticity states that appear in the source: the three values of the
`authenticityStatus` union in `src/types.ts` plus the two admin-terminal
string literals `'Verified'` and `'Spam'` used by `handleAdminVerify` and
the seeded data in `src/App.tsx`. -/
inductive AuthStatus where
  | Unverified
  | LikelyAuthentic
  | PotentialSpam
  | Verified
  | Spam
deriving DecidableEq, Repr

/-- Badge enum from `src/types.ts`. -/
inductive Badge where
  | RecyclingRookie
  | WasteWarrior
  | CompostChampion
  | CommunityVoice
  | Influencer
deriving DecidableEq, Repr

/-- Role enum from `src/types.ts`. -/
inductive Role where
  | User
  | Administrator
deriving DecidableEq, Repr

/-- Complaint record from `src/types.ts`, including the `deletedAt`
soft-delete marker used throughout `src/App.tsx` and
`src/components/Dashboard.tsx`. -/
structure Complaint where
  id : Nat
  userId : Nat
  userName : String
  location : String
  description : String
  status : Status
  createdAt : Nat
  resolvedAt : Option Nat := none
  imageUrl : Option String := none
  votes : Nat
  isPublic : Bool
  authenticityStatus : AuthStatus
  deletedAt : Option Nat := none
deriving DecidableEq, Repr

/-- User record from `src/types.ts` (the plaintext `password` field plays no
role in any claim and is omitted). -/
structure User where
  id : Nat
  name : String
  email : String
  role : Role
  points : Nat
  badges : List Badge
deriving DecidableEq, Repr

/-- Result type of `geminiService.verifyComplaintAuthenticity`:
`'Likely Authentic' | 'Potential Spam'`. -/
inductive AiVerdict where
  | LikelyAuthentic
  | PotentialSpam
deriving DecidableEq, Repr

/-- Injection of an AI verdict into the stored `authenticityStatus` value. -/
def AiVerdict.toAuth : AiVerdict → AuthStatus
  | .LikelyAuthentic => AuthStatus.LikelyAuthentic
  | .PotentialSpam => AuthStatus.PotentialSpam

/-- Argument type of `handleAdminVerify` in `src/App.tsx`:
`'Verified' | 'Spam'`. -/
inductive AdminVerdict where
  | Verified
  | Spam
deriving DecidableEq, Repr

/-- Injection of an admin verdict into the stored `authenticityStatus`. -/
def AdminVerdict.toAuth : AdminVerdict → AuthStatus
  | .Verified => AuthStatus.Verified
  | .Spam => AuthStatus.Spam

/-- Operation `handleAddComplaint` from `src/App.tsx`: builds a new complaint with
`id = Date.now()`, `createdAt = new Date()` (both the current millisecond
count `now`), `status = Pending`, `votes = 0`, no `resolvedAt`, no
`deletedAt`, and prepends it to the collection
(`setComplaints(prev => [newComplaint, ...prev])`). -/
def handleAddComplaint (now ownerId : Nat) (ownerName loc desc : String)
    (imageUrl : Option String) (isPublic : Bool) (authSt : AuthStatus)
    (cs : List Complaint) : List Complaint :=
  { id := now
    userId := ownerId
    userName := ownerName
    location := loc
    description := desc
    status := Status.Pending
    createdAt := now
    resolvedAt := none
    imageUrl := imageUrl
    votes := 0
    isPublic := isPublic
    authenticityStatus := authSt
    deletedAt := none } :: cs

/-- Operation `handleVote` from `src/App.tsx`: increments `votes` on every complaint
whose id matches. -/
def handleVote (cid : Nat) (cs : List Complaint) : List Complaint :=
  cs.map fun c => if c.id = cid then { c with votes := c.votes + 1 } else c

/-- Operation `handleUpdateComplaintStatus` from `src/App.tsx`: sets `status`, and sets
`resolvedAt` to the current time when the new status is `Resolved`, otherwise
to `undefined`. -/
def handleUpdateComplaintStatus (cid : Nat) (st : Status) (now : Nat)
    (cs : List Complaint) : List Complaint :=
  cs.map fun c =>
    if c.id = cid then
      { c with
        status := st
        resolvedAt := if st = Status.Resolved then some now else none }
    else c

/-- Operation `handleDeleteComplaint` from `src/App.tsx` (soft delete): stamps
`deletedAt` with the current time. -/
def handleDeleteComplaint (cid now : Nat) (cs : List Complaint) :
    List Complaint :=
  cs.map fun c => if c.id = cid then { c with deletedAt := some now } else c

/-- Operation `handleRestoreComplaint` from `src/App.tsx`: clears `deletedAt`. -/
def handleRestoreComplaint (cid : Nat) (cs : List Complaint) :
    List Complaint :=
  cs.map fun c => if c.id = cid then { c with deletedAt := none } else c

/-- Operation `handlePermanentDelete` from `src/App.tsx`: removes every complaint with
the given id (`prev.filter(c => c.id !== complaintId)`). -/
def handlePermanentDelete (cid : Nat) (cs : List Complaint) :
    List Complaint :=
  cs.filter fun c => c.id != cid

/-- Operation `handleVerifyAuthenticity` from `src/App.tsx`: looks the complaint up
(`complaints.find`), returns with no state change when it is absent, and
otherwise stores the AI verdict on every complaint with that id. The awaited
result of `verifyComplaintAuthenticity` is the parameter `result`. Note that
the stored value replaces whatever `authenticityStatus` was there before —
the handler itself has no terminal-state guard. -/
def handleVerifyAuthenticity (cid : Nat) (result : AiVerdict)
    (cs : List Complaint) : List Complaint :=
  match cs.find? (fun c => c.id = cid) with
  | none => cs
  | some _ =>
      cs.map fun c =>
        if c.id = cid then { c with authenticityStatus := result.toAuth }
        else c

/-- Operation `handleAdminVerify` from `src/App.tsx`: unconditionally stores the admin
verdict on every complaint with the given id. -/
def handleAdminVerify (cid : Nat) (v : AdminVerdict) (cs : List Complaint) :
    List Complaint :=
  cs.map fun c =>
    if c.id = cid then { c with authenticityStatus := v.toAuth } else c

/-! Submission pipeline.

The wrapper `geminiService.verifyComplaintAuthenticity` wraps the remote gateway call.
The gateway outcome is modelled as `Except Unit String`: `Except.error`
covers a thrown/rejected remote call (and the missing-API-key early return,
which produces the same verdict), `Except.ok t` a response whose trimmed
text is `t`. -/

/-- Wrapper `verifyComplaintAuthenticity` from `src/services/geminiService.ts`.
Every failure path — missing API key, a thrown gateway call, or response
text other than the two expected strings — returns `'Likely Authentic'`;
the function never throws to its caller. -/
def verifyComplaintAuthenticity (gateway : Except Unit String) : AiVerdict :=
  match gateway with
  | .error _ => AiVerdict.LikelyAuthentic
  | .ok t =>
      if t = "Likely Authentic" then AiVerdict.LikelyAuthentic
      else if t = "Potential Spam" then AiVerdict.PotentialSpam
      else AiVerdict.LikelyAuthentic

/-- The argument tuple that `ComplaintForm.processSubmission` passes to
`onSubmit` (which is `handleAddComplaint` through
`Dashboard.handleComplaintSubmit`). -/
structure SubmitArgs where
  location : String
  description : String
  imageUrl : Option String
  isPublic : Bool
  authenticityStatus : AuthStatus
deriving DecidableEq, Repr

/-- Function `processSubmission` from `src/components/ComplaintForm.tsx`.
`verificationResult` is the state set by the manual check-authenticity
button (only ever one of the two AI verdicts, or `none`); `aiCall` is the
outcome of awaiting `verifyComplaintAuthenticity` as seen at this call
site, with `Except.error` standing for a rejected promise. The body mirrors
the source: start from the requested visibility with `'Unverified'`; a
manual verdict wins; otherwise a public request triggers the AI call whose
failure flips the complaint private; finally a `'Potential Spam'` verdict
forces the complaint private. -/
def processSubmission (isPublic : Bool) (verificationResult : Option AiVerdict)
    (aiCall : Except Unit AiVerdict) (loc desc : String)
    (image : Option String) : SubmitArgs :=
  let step : Bool × AuthStatus :=
    match verificationResult with
    | some v => (isPublic, v.toAuth)
    | none =>
        if isPublic then
          match aiCall with
          | .ok v => (isPublic, v.toAuth)
          | .error _ => (false, AuthStatus.Unverified)
        else (isPublic, AuthStatus.Unverified)
  let finalIsPublic :=
    if step.2 = AuthStatus.PotentialSpam then false else step.1
  { location := loc
    description := desc
    imageUrl := image
    isPublic := finalIsPublic
    authenticityStatus := step.2 }

/-- Composition of `processSubmission` with the actual service wrapper: since
`verifyComplaintAuthenticity` catches every error internally, the awaited
call always succeeds, with the wrapper deciding the verdict from the raw
gateway outcome. -/
def processSubmissionComposed (isPublic : Bool)
    (verificationResult : Option AiVerdict) (gateway : Except Unit String)
    (loc desc : String) (image : Option String) : SubmitArgs :=
  processSubmission isPublic verificationResult
    (Except.ok (verifyComplaintAuthenticity gateway)) loc desc image

/-- Function `handleSubmit` from `src/components/ComplaintForm.tsx`: blocks the
submission (returns `none`, after an alert) when the description is empty or
no image was taken; with a filled-in location it submits directly, and with
an empty location it submits only when geolocation detection succeeds and
the user confirms — `detected` is the location produced by that path, or
`none` when the path does not reach `processSubmission` (geolocation
unsupported, denied, failed, or a confirm dialog declined). -/
def formHandleSubmit (loc desc : String) (image : Option String)
    (isPublic : Bool) (verificationResult : Option AiVerdict)
    (gateway : Except Unit String) (detected : Option String) :
    Option SubmitArgs :=
  if desc = "" then none
  else if image = none then none
  else if loc ≠ "" then
    some (processSubmissionComposed isPublic verificationResult gateway
      loc desc image)
  else
    match detected with
    | some d =>
        some (processSubmissionComposed isPublic verificationResult gateway
          d desc image)
    | none => none

/-- Storage step for a form submission: `Dashboard.handleComplaintSubmit`
forwards the `processSubmission` arguments verbatim to
`App.handleAddComplaint`. -/
def submitViaForm (now ownerId : Nat) (ownerName : String) (a : SubmitArgs)
    (cs : List Complaint) : List Complaint :=
  handleAddComplaint now ownerId ownerName a.location a.description
    a.imageUrl a.isPublic a.authenticityStatus cs

/-- Function `handleToolCall` for `create_complaint` in
`src/components/ChatAssistant.tsx`: calls
`onAddComplaint(args.location, args.description, undefined, true)`, i.e.
adds a complaint with no image, `isPublic = true`, and the default
`'Unverified'` authenticity status. -/
def chatCreateComplaint (now ownerId : Nat) (ownerName loc desc : String)
    (cs : List Complaint) : List Complaint :=
  handleAddComplaint now ownerId ownerName loc desc none true
    AuthStatus.Unverified cs

/-! Gamification view (`src/components/Dashboard.tsx`, `sortedUsers`). -/

/-- The per-user complaint selection in the gamification view:
`complaints.filter(c => c.userId === u.id && c.isPublic &&
c.status !== Status.RESOLVED && !c.deletedAt &&
c.authenticityStatus !== 'Spam')`. -/
def activePublicComplaints (cs : List Complaint) (uid : Nat) :
    List Complaint :=
  cs.filter fun c =>
    c.userId == uid && c.isPublic && c.status != Status.Resolved &&
      c.deletedAt == none && c.authenticityStatus != AuthStatus.Spam

/-- The per-user map inside `sortedUsers` in the gamification view:
displayed points are the stored points plus `votes * 5` summed over the
user's active public complaints, and the badge list is the stored one
extended with `CommunityVoice` (total filtered votes at least 5) and
`Influencer` (at least 10) when absent. -/
def gamificationEntry (cs : List Complaint) (u : User) : User :=
  let act := activePublicComplaints cs u.id
  let totalPoints := u.points + act.foldl (fun s c => s + c.votes * 5) 0
  let totalVotes := act.foldl (fun s c => s + c.votes) 0
  let b1 :=
    if 5 ≤ totalVotes && !(u.badges.contains Badge.CommunityVoice) then
      u.badges ++ [Badge.CommunityVoice]
    else u.badges
  let b2 :=
    if 10 ≤ totalVotes && !(b1.contains Badge.Influencer) then
      b1 ++ [Badge.Influencer]
    else b1
  { u with points := totalPoints, badges := b2 }

/-! Analytics aggregator (`src/components/Dashboard.tsx`, `AdminReportsView`). -/

/-- Selection `filteredComplaints` in `AdminReportsView`: the non-deleted complaints
whose creation time matches the selected period. The year/month matching is
a predicate of `createdAt` alone and is abstracted as `inPeriod`. -/
def periodFilter (inPeriod : Nat → Bool) (cs : List Complaint) :
    List Complaint :=
  cs.filter fun c => inPeriod c.createdAt && c.deletedAt == none

/-- JavaScript `x.toFixed(1)` read back as a number: one-decimal rounding.
For the nonnegative averages produced by the aggregator this matches the
half-away-from-zero rounding of `toFixed`. -/
def toFixed1 (x : ℚ) : ℚ := (round (10 * x) : ℤ) / 10

/-- The record returned by `analyticsMetrics` in `AdminReportsView`. -/
structure AnalyticsMetrics where
  avgResolutionTimeDays : ℚ
  resolutionRate : ℤ
  total : Nat
deriving DecidableEq, Repr

/-- Aggregator `analyticsMetrics` from `AdminReportsView`: over the period-filtered
non-deleted complaints, the resolved subset is those with
`status === RESOLVED && resolvedAt`; `resolutionRate` is
`Math.round((totalResolved / total) * 100)` (0 when the subset is empty,
with `Math.round` being round-half-up, Mathlib's `round`); the average
resolution time sums `resolvedAt - createdAt` in milliseconds, divides by
the resolved count and by `1000 * 60 * 60` for hours, then by 24 and
formats with `toFixed(1)`. -/
def analyticsMetrics (inPeriod : Nat → Bool) (cs : List Complaint) :
    AnalyticsMetrics :=
  let filtered := periodFilter inPeriod cs
  let resolved := filtered.filter fun c =>
    c.status == Status.Resolved && c.resolvedAt != none
  let totalResolved := resolved.length
  let total := filtered.length
  let totalResolutionTime : ℤ :=
    resolved.foldl
      (fun s c => s + ((c.resolvedAt.getD 0 : ℤ) - (c.createdAt : ℤ))) 0
  let avgHours : ℚ :=
    if 0 < totalResolved then
      ((totalResolutionTime : ℚ) / (totalResolved : ℚ)) / 3600000
    else 0
  let rate : ℤ :=
    if 0 < total then round (((totalResolved : ℚ) / (total : ℚ)) * 100)
    else 0
  { avgResolutionTimeDays := toFixed1 (avgHours / 24)
    resolutionRate := rate
    total := total }


/-! Helper lemmas. -/

/-- Folding addition of a projection equals the initial value plus the sum of
the mapped list. -/
lemma foldl_add_map {α M : Type} [AddCommMonoid M] (f : α → M) :
    ∀ (l : List α) (n : M), l.foldl (fun s c => s + f c) n = n + (l.map f).sum := by
  intro l
  induction l with
  | nil => intro n; simp
  | cons c t ih =>
      intro n
      simp [List.foldl_cons, ih, List.sum_cons, add_assoc]

/-- The complaints whose id differs from `cid`, in collection order. -/
def others (cid : Nat) (cs : List Complaint) : List Complaint :=
  cs.filter fun c => c.id != cid

lemma others_map_update (cid : Nat) (f : Complaint → Complaint)
    (hf : ∀ c, (f c).id = c.id) (cs : List Complaint) :
    others cid (cs.map fun c => if c.id = cid then f c else c) =
      others cid cs := by
  induction cs with
  | nil => rfl
  | cons c t ih =>
      by_cases hid : c.id = cid
      · simp only [others, List.map_cons, List.filter_cons] at *
        rw [if_pos hid]
        have h1 : ((f c).id != cid) = false := by simp [hf, hid]
        have h2 : (c.id != cid) = false := by simp [hid]
        simp only [h1, h2, Bool.false_eq_true, if_false, ih]
      · simp only [others, List.map_cons, List.filter_cons] at *
        rw [if_neg hid]
        have h2 : (c.id != cid) = true := by simp [hid]
        simp only [h2, if_true, ih]

lemma map_update_of_ne (cid : Nat) (f : Complaint → Complaint)
    (cs : List Complaint) (h : ∀ c ∈ cs, c.id ≠ cid) :
    (cs.map fun c => if c.id = cid then f c else c) = cs := by
  induction cs with
  | nil => rfl
  | cons c t ih =>
      have hc := h c (List.mem_cons_self c t)
      have ht := fun x hx => h x (List.mem_cons_of_mem c hx)
      simp [hc, ih ht]

/-! Claim C9. -/

/-- C9: for a collection in which every complaint carrying the targeted id is
not soft-deleted, `softDelete` followed by `restore` on that id returns the
collection to exactly its original state. -/
theorem softDelete_restore_roundtrip (cid now : Nat) (cs : List Complaint)
    (h : ∀ c ∈ cs, c.id = cid → c.deletedAt = none) :
    handleRestoreComplaint cid (handleDeleteComplaint cid now cs) = cs := by
  induction cs with
  | nil => rfl
  | cons c t ih =>
      have hc := h c (List.mem_cons_self c t)
      have ht := fun x hx hxid => h x (List.mem_cons_of_mem c hx) hxid
      by_cases hid : c.id = cid
      · subst hid
        have hrestore : ({ c with deletedAt := none } : Complaint) = c := by
          cases c
          simp_all
        have := ih ht
        simp only [handleDeleteComplaint, handleRestoreComplaint,
          List.map_cons] at *
        simp [hrestore, this]
      · have := ih ht
        simp only [handleDeleteComplaint, handleRestoreComplaint,
          List.map_cons] at *
        simp [hid, this]

def cW : Complaint :=
  { id := 3, userId := 1, userName := "Alice", location := "Dorm Block A"
    description := "Broken glass bottle on the pavement."
    status := Status.Pending, createdAt := 100, resolvedAt := none
    imageUrl := none, votes := 0, isPublic := false
    authenticityStatus := AuthStatus.Unverified, deletedAt := none }

/-- Witness for C9 at a concrete complaint. -/
theorem softDelete_restore_roundtrip_witness :
    handleRestoreComplaint 3 (handleDeleteComplaint 3 77 [cW]) = [cW] :=
  softDelete_restore_roundtrip 3 77 [cW] (by decide)

/-! Claim C1. -/

/-- C1: setStatus invariant. -/
theorem setStatus_resolvedAt_iff (cid : Nat) (st : Status) (now : Nat)
    (cs : List Complaint)
    (h : ∀ c ∈ cs, c.resolvedAt ≠ none ↔ c.status = Status.Resolved) :
    ∀ c' ∈ handleUpdateComplaintStatus cid st now cs,
      (c'.resolvedAt ≠ none ↔ c'.status = Status.Resolved) ∧
      (c'.id = cid → c'.status = st ∧
        c'.resolvedAt = if st = Status.Resolved then some now else none) := by
  intro c' hc'
  simp only [handleUpdateComplaintStatus, List.mem_map] at hc'
  obtain ⟨c, hc, rfl⟩ := hc'
  by_cases hid : c.id = cid
  · simp only [hid, if_pos rfl]
    constructor
    · by_cases hst : st = Status.Resolved
      · simp [hst]
      · simp [hst]
    · intro _
      exact ⟨rfl, rfl⟩
  · simp only [hid, if_neg hid]
    refine ⟨h c hc, fun hcontra => absurd hcontra hid⟩

/-- The complaint `cW` after being marked Resolved at time 7. -/
def cWresolved : Complaint :=
  { cW with status := Status.Resolved, resolvedAt := some 7 }

/-- Witness for C1: the complaint `cW` (Pending, no `resolvedAt`) marked
Resolved at time 7. -/
theorem setStatus_resolvedAt_iff_witness :
    (cWresolved.resolvedAt ≠ none ↔ cWresolved.status = Status.Resolved) ∧
    (cWresolved.id = 3 → cWresolved.status = Status.Resolved ∧
      cWresolved.resolvedAt =
        if Status.Resolved = Status.Resolved then some 7 else none) :=
  setStatus_resolvedAt_iff 3 Status.Resolved 7 [cW] (by decide)
    cWresolved (by decide)

/-! Claim C10. -/

/-- C10: frame properties of the per-complaint lifecycle operations. -/
theorem lifecycle_frame_properties (cid : Nat) (st : Status) (now : Nat)
    (r : AiVerdict) (v : AdminVerdict) (cs : List Complaint) :
    (others cid (handleVote cid cs) = others cid cs ∧
     others cid (handleUpdateComplaintStatus cid st now cs) = others cid cs ∧
     others cid (handleDeleteComplaint cid now cs) = others cid cs ∧
     others cid (handleRestoreComplaint cid cs) = others cid cs ∧
     others cid (handlePermanentDelete cid cs) = others cid cs ∧
     others cid (handleVerifyAuthenticity cid r cs) = others cid cs ∧
     others cid (handleAdminVerify cid v cs) = others cid cs) ∧
    ((∀ c ∈ cs, c.id ≠ cid) →
      handleVote cid cs = cs ∧
      handleUpdateComplaintStatus cid st now cs = cs ∧
      handleDeleteComplaint cid now cs = cs ∧
      handleRestoreComplaint cid cs = cs ∧
      handlePermanentDelete cid cs = cs ∧
      handleVerifyAuthenticity cid r cs = cs ∧
      handleAdminVerify cid v cs = cs) := by
  constructor
  · refine ⟨?_, ?_, ?_, ?_, ?_, ?_, ?_⟩
    · exact others_map_update cid
        (fun c => { c with votes := c.votes + 1 }) (fun c => rfl) cs
    · exact others_map_update cid
        (fun c => { c with status := st, resolvedAt := if st = Status.Resolved then some now else none })
        (fun c => rfl) cs
    · exact others_map_update cid
        (fun c => { c with deletedAt := some now }) (fun c => rfl) cs
    · exact others_map_update cid
        (fun c => { c with deletedAt := none }) (fun c => rfl) cs
    · simp only [others, handlePermanentDelete, List.filter_filter,
        Bool.and_self]
    · unfold handleVerifyAuthenticity
      cases hfind : cs.find? (fun c => c.id = cid) with
      | none => rfl
      | some c =>
          exact others_map_update cid
            (fun c => { c with authenticityStatus := r.toAuth })
            (fun c => rfl) cs
    · exact others_map_update cid
        (fun c => { c with authenticityStatus := v.toAuth })
        (fun c => rfl) cs
  · intro h
    refine ⟨?_, ?_, ?_, ?_, ?_, ?_, ?_⟩
    · exact map_update_of_ne cid
        (fun c => { c with votes := c.votes + 1 }) cs h
    · exact map_update_of_ne cid
        (fun c => { c with status := st, resolvedAt := if st = Status.Resolved then some now else none })
        cs h
    · exact map_update_of_ne cid
        (fun c => { c with deletedAt := some now }) cs h
    · exact map_update_of_ne cid
        (fun c => { c with deletedAt := none }) cs h
    · exact List.filter_eq_self.mpr (fun c hc => by simpa using h c hc)
    · unfold handleVerifyAuthenticity
      have hfind : cs.find? (fun c => c.id = cid) = none :=
        List.find?_eq_none.mpr (fun c hc => by simpa using h c hc)
      rw [hfind]
    · exact map_update_of_ne cid
        (fun c => { c with authenticityStatus := v.toAuth }) cs h

/-- Witness for C10: the operations applied with id 2 to the singleton
collection holding `cW` (whose id is 3). -/
theorem lifecycle_frame_properties_witness :
    (others 2 (handleVote 2 [cW]) = others 2 [cW] ∧
     others 2 (handleUpdateComplaintStatus 2 Status.Resolved 7 [cW]) =
       others 2 [cW] ∧
     others 2 (handleDeleteComplaint 2 7 [cW]) = others 2 [cW] ∧
     others 2 (handleRestoreComplaint 2 [cW]) = others 2 [cW] ∧
     others 2 (handlePermanentDelete 2 [cW]) = others 2 [cW] ∧
     others 2 (handleVerifyAuthenticity 2 AiVerdict.PotentialSpam [cW]) =
       others 2 [cW] ∧
     others 2 (handleAdminVerify 2 AdminVerdict.Spam [cW]) = others 2 [cW]) ∧
    (handleVote 2 [cW] = [cW] ∧
     handleUpdateComplaintStatus 2 Status.Resolved 7 [cW] = [cW] ∧
     handleDeleteComplaint 2 7 [cW] = [cW] ∧
     handleRestoreComplaint 2 [cW] = [cW] ∧
     handlePermanentDelete 2 [cW] = [cW] ∧
     handleVerifyAuthenticity 2 AiVerdict.PotentialSpam [cW] = [cW] ∧
     handleAdminVerify 2 AdminVerdict.Spam [cW] = [cW]) :=
  ⟨(lifecycle_frame_properties 2 Status.Resolved 7 AiVerdict.PotentialSpam
      AdminVerdict.Spam [cW]).1,
   (lifecycle_frame_properties 2 Status.Resolved 7 AiVerdict.PotentialSpam
      AdminVerdict.Spam [cW]).2 (by decide)⟩

/-! Claim C2. -/

/-- The condition under which the admin card in `Dashboard.ComplaintCard`
renders the AI check-authenticity button: the authenticity status is neither
Verified nor Spam nor one of the two AI verdicts
(`!isVerified && !isSpam` around the button block and `!isAiChecked` at the
button itself). -/
def uiShowsAiCheck (c : Complaint) : Bool :=
  !(c.authenticityStatus == AuthStatus.Verified) &&
    !(c.authenticityStatus == AuthStatus.Spam) &&
    !(c.authenticityStatus == AuthStatus.LikelyAuthentic ||
      c.authenticityStatus == AuthStatus.PotentialSpam)

/-- A complaint carrying the terminal admin decision Verified. -/
def cVerified : Complaint :=
  { id := 1, userId := 1, userName := "Alice", location := "Library"
    description := "Overflowing recycling bin."
    status := Status.Resolved, createdAt := 50, resolvedAt := some 60
    imageUrl := some "img", votes := 12, isPublic := true
    authenticityStatus := AuthStatus.Verified, deletedAt := none }

/-- Counterexample to C2: running the AI verification on a complaint already
Verified replaces the terminal status with the AI verdict. -/
theorem aiVerify_overwrites_terminal_cex :
    cVerified.authenticityStatus = AuthStatus.Verified ∧
    (handleVerifyAuthenticity 1 AiVerdict.PotentialSpam [cVerified]).map
        Complaint.authenticityStatus = [AuthStatus.PotentialSpam] := by
  decide

/-- C2 amended: the handler stores the AI verdict unconditionally on the
matched complaint; the terminal-state protection exists only in the UI. -/
theorem aiVerify_unconditional_overwrite (cid : Nat) (r : AiVerdict)
    (cs : List Complaint) (c : Complaint) (hc : c ∈ cs) (hid : c.id = cid) :
    (∀ c' ∈ handleVerifyAuthenticity cid r cs,
      c'.id = cid → c'.authenticityStatus = r.toAuth) ∧
    (c.authenticityStatus = AuthStatus.Verified ∨
      c.authenticityStatus = AuthStatus.Spam → uiShowsAiCheck c = false) := by
  constructor
  · intro c' hc' hcid
    have hfind : (cs.find? (fun c => c.id = cid)).isSome := by
      rw [List.find?_isSome]
      exact ⟨c, hc, by simpa using hid⟩
    unfold handleVerifyAuthenticity at hc'
    cases hf : cs.find? (fun c => c.id = cid) with
    | none => rw [hf] at hfind; simp at hfind
    | some c0 =>
        rw [hf] at hc'
        simp only [List.mem_map] at hc'
        obtain ⟨c1, _, rfl⟩ := hc'
        by_cases h1 : c1.id = cid
        · simp [h1]
        · simp only [h1, if_neg h1] at hcid ⊢
          exact absurd hcid h1
  · intro hterm
    cases hterm with
    | inl h => simp [uiShowsAiCheck, h]
    | inr h => simp [uiShowsAiCheck, h]

/-- The complaint `cVerified` after the AI verdict overwrites it. -/
def cVerifiedOverwritten : Complaint :=
  { cVerified with authenticityStatus := AuthStatus.PotentialSpam }

/-- Witness for C2 amended at the Verified complaint `cVerified`. -/
theorem aiVerify_unconditional_overwrite_witness :
    cVerifiedOverwritten.authenticityStatus = AiVerdict.PotentialSpam.toAuth ∧
    uiShowsAiCheck cVerified = false :=
  ⟨(aiVerify_unconditional_overwrite 1 AiVerdict.PotentialSpam [cVerified]
      cVerified (by decide) (by decide)).1 cVerifiedOverwritten
      (by decide) (by decide),
   (aiVerify_unconditional_overwrite 1 AiVerdict.PotentialSpam [cVerified]
      cVerified (by decide) (by decide)).2 (Or.inl (by decide))⟩

/-! Claim C3. -/

/-- Counterexample to C3: the chat tool call path adds a complaint carrying
no image. -/
theorem chat_create_without_image_cex :
    (chatCreateComplaint 5 1 "Alice" "Gym" "Paper towels on floor" []).length
        = 1 ∧
    (chatCreateComplaint 5 1 "Alice" "Gym" "Paper towels on floor"
        []).head?.map Complaint.imageUrl = some none := by
  decide

/-- C3 amended: the form path blocks submissions with an empty description or
a missing image, but the chat assistant tool path adds a complaint with no
image (public, Unverified). -/
theorem submitValidation_and_chat_bypass (loc desc : String)
    (image : Option String) (isPublic : Bool)
    (vr : Option AiVerdict) (gw : Except Unit String)
    (detected : Option String) (now uid : Nat) (nm : String)
    (cs : List Complaint) :
    formHandleSubmit loc "" image isPublic vr gw detected = none ∧
    formHandleSubmit loc desc none isPublic vr gw detected = none ∧
    (chatCreateComplaint now uid nm loc desc cs).head?.map
        Complaint.imageUrl = some none ∧
    (chatCreateComplaint now uid nm loc desc cs).head?.map
        Complaint.isPublic = some true ∧
    (chatCreateComplaint now uid nm loc desc cs).head?.map
        Complaint.authenticityStatus = some AuthStatus.Unverified ∧
    (chatCreateComplaint now uid nm loc desc cs).length = cs.length + 1 := by
  refine ⟨rfl, ?_, rfl, rfl, rfl, by simp [chatCreateComplaint, handleAddComplaint]⟩
  by_cases hd : desc = ""
  · simp [formHandleSubmit, hd]
  · simp [formHandleSubmit, hd]

/-! Claim C4. -/

/-- Counterexample to C4: a public submission whose gateway call fails is
stored public (`isPublic = true`), not private. -/
theorem gateway_error_complaint_stays_public_cex :
    (submitViaForm 9 1 "Alice"
        (processSubmissionComposed true none (Except.error ()) "Library"
          "Overflowing bin" (some "img")) []).map Complaint.isPublic
      = [true] := by
  decide

/-- C4 amended: the service wrapper converts any gateway failure into the
verdict Likely Authentic and never throws, so a public submission completes
with the complaint stored public and marked Likely Authentic; the
private-default catch inside `processSubmission` only fires on a thrown
call and is therefore unreachable in the composed pipeline. -/
theorem gateway_error_degrades_to_likelyAuthentic (loc desc : String)
    (image : Option String) (now uid : Nat) (nm : String)
    (cs : List Complaint) :
    verifyComplaintAuthenticity (Except.error ()) =
      AiVerdict.LikelyAuthentic ∧
    processSubmissionComposed true none (Except.error ()) loc desc image =
      { location := loc, description := desc, imageUrl := image
        isPublic := true
        authenticityStatus := AuthStatus.LikelyAuthentic } ∧
    (submitViaForm now uid nm
        (processSubmissionComposed true none (Except.error ()) loc desc
          image) cs).length = cs.length + 1 ∧
    (submitViaForm now uid nm
        (processSubmissionComposed true none (Except.error ()) loc desc
          image) cs).head?.map Complaint.isPublic = some true ∧
    processSubmission true none (Except.error ()) loc desc image =
      { location := loc, description := desc, imageUrl := image
        isPublic := false, authenticityStatus := AuthStatus.Unverified } := by
  refine ⟨rfl, rfl, ?_, rfl, rfl⟩
  simp [submitViaForm, handleAddComplaint]

/-! Claim C5. -/

/-- C5: a public submission whose authenticity check yields Potential Spam is
stored private with the verdict recorded. -/
theorem spam_public_forced_private (loc desc : String)
    (image : Option String) (vr : Option AiVerdict)
    (gw : Except Unit String)
    (h : vr = some AiVerdict.PotentialSpam ∨
      (vr = none ∧ gw = Except.ok "Potential Spam"))
    (now uid : Nat) (nm : String) (cs : List Complaint) :
    (processSubmissionComposed true vr gw loc desc image).isPublic = false ∧
    (processSubmissionComposed true vr gw loc desc
        image).authenticityStatus = AuthStatus.PotentialSpam ∧
    (submitViaForm now uid nm
        (processSubmissionComposed true vr gw loc desc image) cs).head?.map
        Complaint.isPublic = some false ∧
    (submitViaForm now uid nm
        (processSubmissionComposed true vr gw loc desc image) cs).head?.map
        Complaint.authenticityStatus = some AuthStatus.PotentialSpam := by
  obtain h | ⟨hvr, hgw⟩ := h
  · subst h
    exact ⟨rfl, rfl, rfl, rfl⟩
  · subst hvr
    subst hgw
    exact ⟨rfl, rfl, rfl, rfl⟩

/-- Witness for C5: a public submission, no manual check, gateway answering
Potential Spam. -/
theorem spam_public_forced_private_witness :
    (processSubmissionComposed true none (Except.ok "Potential Spam")
        "Cafeteria" "Full bin" (some "img")).isPublic = false ∧
    (processSubmissionComposed true none (Except.ok "Potential Spam")
        "Cafeteria" "Full bin" (some "img")).authenticityStatus =
      AuthStatus.PotentialSpam ∧
    (submitViaForm 9 1 "Alice"
        (processSubmissionComposed true none (Except.ok "Potential Spam")
          "Cafeteria" "Full bin" (some "img")) []).head?.map
        Complaint.isPublic = some false ∧
    (submitViaForm 9 1 "Alice"
        (processSubmissionComposed true none (Except.ok "Potential Spam")
          "Cafeteria" "Full bin" (some "img")) []).head?.map
        Complaint.authenticityStatus = some AuthStatus.PotentialSpam :=
  spam_public_forced_private "Cafeteria" "Full bin" (some "img") none
    (Except.ok "Potential Spam") (Or.inr ⟨rfl, rfl⟩) 9 1 "Alice" []

/-! Claim C6. -/

lemma sum_map_votes_mul (l : List Complaint) :
    (l.map fun c => c.votes * 5).sum = 5 * (l.map Complaint.votes).sum := by
  induction l with
  | nil => rfl
  | cons c t ih =>
      simp only [List.map_cons, List.sum_cons, ih]
      ring

/-- The scenario user: zero stored points, no stored badges. -/
def u6ex : User :=
  { id := 9, name := "Uma", email := "uma@example.com", role := Role.User
    points := 0, badges := [] }

/-- The scenario complaint: public, pending, six votes, owned by `u6ex`. -/
def c6ex : Complaint :=
  { id := 100, userId := 9, userName := "Uma", location := "Gym"
    description := "Paper towels all over the floor."
    status := Status.Pending, createdAt := 10, resolvedAt := none
    imageUrl := some "img", votes := 6, isPublic := true
    authenticityStatus := AuthStatus.Unverified, deletedAt := none }

/-- C6: gamification displayed points formula, empty-set baseline, and the
6-vote scenario. -/
theorem gamification_points_formula (cs : List Complaint) (u : User)
    (_hrole : u.role = Role.User) :
    (gamificationEntry cs u).points =
      u.points +
        5 * ((activePublicComplaints cs u.id).map Complaint.votes).sum ∧
    (activePublicComplaints cs u.id = [] →
      (gamificationEntry cs u).points = u.points) ∧
    (gamificationEntry [c6ex] u6ex).points = 30 ∧
    (gamificationEntry [c6ex] u6ex).badges = [Badge.CommunityVoice] := by
  have hpoints : (gamificationEntry cs u).points =
      u.points +
        5 * ((activePublicComplaints cs u.id).map Complaint.votes).sum := by
    show u.points +
        (activePublicComplaints cs u.id).foldl
          (fun s c => s + c.votes * 5) 0 = _
    rw [foldl_add_map (fun c => c.votes * 5)
      (activePublicComplaints cs u.id) 0, zero_add, sum_map_votes_mul]
  refine ⟨hpoints, ?_, by decide, by decide⟩
  intro he
  rw [hpoints, he]
  simp

/-- Witness for C6: a user with role User and an empty complaint
collection. -/
theorem gamification_points_formula_witness :
    ((gamificationEntry [] u6ex).points =
      u6ex.points +
        5 * ((activePublicComplaints [] u6ex.id).map Complaint.votes).sum) ∧
    (gamificationEntry [] u6ex).points = u6ex.points ∧
    (gamificationEntry [c6ex] u6ex).points = 30 ∧
    (gamificationEntry [c6ex] u6ex).badges = [Badge.CommunityVoice] :=
  ⟨(gamification_points_formula [] u6ex (by decide)).1,
   (gamification_points_formula [] u6ex (by decide)).2.1 rfl,
   (gamification_points_formula [] u6ex (by decide)).2.2.1,
   (gamification_points_formula [] u6ex (by decide)).2.2.2⟩

/-! Claim C7. -/

/-- The resolved subset used by the analytics aggregator. -/
def resolvedIn (inPeriod : Nat → Bool) (cs : List Complaint) :
    List Complaint :=
  (periodFilter inPeriod cs).filter fun c =>
    c.status == Status.Resolved && c.resolvedAt != none

/-- First scenario complaint: created at `d0 = 1000000` ms and resolved two
days (172800000 ms) later. -/
def exResolved : Complaint :=
  { id := 1, userId := 1, userName := "Alice", location := "Library"
    description := "Overflowing recycling bin."
    status := Status.Resolved, createdAt := 1000000
    resolvedAt := some 173800000, imageUrl := some "img", votes := 12
    isPublic := true, authenticityStatus := AuthStatus.Verified
    deletedAt := none }

/-- Second scenario complaint: created later, never resolved. -/
def exPending : Complaint :=
  { id := 2, userId := 1, userName := "Alice", location := "Cafeteria"
    description := "General waste bin is full."
    status := Status.Pending, createdAt := 2000000, resolvedAt := none
    imageUrl := none, votes := 5, isPublic := true
    authenticityStatus := AuthStatus.Unverified, deletedAt := none }

/-- C7: the analytics resolution metrics. -/
theorem analytics_resolution_metrics (inPeriod : Nat → Bool)
    (cs : List Complaint) :
    (analyticsMetrics inPeriod cs).total =
      (periodFilter inPeriod cs).length ∧
    (analyticsMetrics inPeriod cs).resolutionRate =
      (if (periodFilter inPeriod cs).length = 0 then 0
       else round ((100 * ((resolvedIn inPeriod cs).length : ℚ)) /
         ((periodFilter inPeriod cs).length : ℚ))) ∧
    (analyticsMetrics inPeriod cs).avgResolutionTimeDays =
      (if (resolvedIn inPeriod cs).length = 0 then 0
       else toFixed1 (((((resolvedIn inPeriod cs).map fun c =>
             (c.resolvedAt.getD 0 : ℤ) - (c.createdAt : ℤ)).sum : ℤ) : ℚ) /
           ((resolvedIn inPeriod cs).length : ℚ) / 86400000)) ∧
    (analyticsMetrics (fun _ => true)
        [exResolved, exPending]).resolutionRate = 50 ∧
    (analyticsMetrics (fun _ => true)
        [exResolved, exPending]).avgResolutionTimeDays = 2 ∧
    (analyticsMetrics (fun _ => true) [exResolved, exPending]).total = 2 := by
  refine ⟨rfl, ?_, ?_, ?_, ?_, rfl⟩
  · by_cases ht : (periodFilter inPeriod cs).length = 0
    · simp [analyticsMetrics, resolvedIn, ht]
    · have hpos : 0 < (periodFilter inPeriod cs).length :=
        Nat.pos_of_ne_zero ht
      simp only [analyticsMetrics, resolvedIn, if_pos hpos, if_neg ht]
      congr 1
      rw [div_mul_eq_mul_div, mul_comm]
  · by_cases hr : (resolvedIn inPeriod cs).length = 0
    · simp only [analyticsMetrics, resolvedIn] at hr ⊢
      rw [if_pos hr, if_neg (by omega)]
      simp [toFixed1]
    · have hpos : 0 < (resolvedIn inPeriod cs).length :=
        Nat.pos_of_ne_zero hr
      simp only [analyticsMetrics, resolvedIn] at hpos hr ⊢
      rw [if_pos hpos, if_neg hr]
      congr 1
      rw [foldl_add_map
        (fun c => (c.resolvedAt.getD 0 : ℤ) - (c.createdAt : ℤ))
        ((periodFilter inPeriod cs).filter fun c =>
          c.status == Status.Resolved && c.resolvedAt != none) 0]
      rw [zero_add, div_div]
      norm_num
  · have h1 : periodFilter (fun _ => true) [exResolved, exPending] =
        [exResolved, exPending] := by decide
    have h2 : List.filter
        (fun c => c.status == Status.Resolved && c.resolvedAt != none)
        [exResolved, exPending] = [exResolved] := by decide
    simp only [analyticsMetrics, h1, h2, List.length_cons, List.length_nil]
    norm_num [round_eq]
  · have h1 : periodFilter (fun _ => true) [exResolved, exPending] =
        [exResolved, exPending] := by decide
    have h2 : List.filter
        (fun c => c.status == Status.Resolved && c.resolvedAt != none)
        [exResolved, exPending] = [exResolved] := by decide
    simp only [analyticsMetrics, h1, h2, List.length_cons, List.length_nil,
      List.foldl_cons, List.foldl_nil]
    norm_num [exResolved, toFixed1, round_eq]

/-! Claim C8. -/

/-- A stored complaint whose id happens to equal the next `Date.now()`
value. -/
def cDup : Complaint :=
  { id := 777, userId := 4, userName := "Diana", location := "Gym"
    description := "Paper towels all over the floor."
    status := Status.Pending, createdAt := 700, resolvedAt := none
    imageUrl := none, votes := 8, isPublic := true
    authenticityStatus := AuthStatus.Unverified, deletedAt := none }

/-- Counterexample to C8: submitting at millisecond 777, when a stored
complaint already has id 777, produces a duplicate id. -/
theorem addComplaint_id_collision_cex :
    cDup.id = 777 ∧
    (handleAddComplaint 777 1 "Alice" "Cafeteria" "Full bin" (some "img")
        true AuthStatus.Unverified [cDup]).map Complaint.id = [777, 777] := by
  decide

/-- C8 amended: structure of the inserted complaint, head insertion with the
tail untouched, and id freshness exactly when the clock value is not an
existing id. -/
theorem addComplaint_head_and_freshness (now uid : Nat)
    (nm loc desc : String) (image : Option String) (isPublic : Bool)
    (auth : AuthStatus) (cs : List Complaint) :
    (handleAddComplaint now uid nm loc desc image isPublic auth cs).head? =
      some { id := now, userId := uid, userName := nm, location := loc
             description := desc, status := Status.Pending, createdAt := now
             resolvedAt := none, imageUrl := image, votes := 0
             isPublic := isPublic, authenticityStatus := auth
             deletedAt := none } ∧
    (handleAddComplaint now uid nm loc desc image isPublic auth cs).tail =
      cs ∧
    (handleAddComplaint now uid nm loc desc image isPublic auth cs).length =
      cs.length + 1 ∧
    ((∀ c ∈ cs, c.id ≠ now) → ∀ c ∈ cs,
      some c.id ≠
        (handleAddComplaint now uid nm loc desc image isPublic auth
          cs).head?.map Complaint.id) := by
  refine ⟨rfl, rfl, by simp [handleAddComplaint], ?_⟩
  intro h c hc
  simpa [handleAddComplaint] using h c hc

/-- Witness for C8 amended: adding at millisecond 10 over the singleton
collection holding `cW` (id 3). -/
theorem addComplaint_head_and_freshness_witness :
    (handleAddComplaint 10 1 "Alice" "Gym" "Litter" (some "img") true
        AuthStatus.Unverified [cW]).head? =
      some { id := 10, userId := 1, userName := "Alice", location := "Gym"
             description := "Litter", status := Status.Pending
             createdAt := 10, resolvedAt := none, imageUrl := some "img"
             votes := 0, isPublic := true
             authenticityStatus := AuthStatus.Unverified
             deletedAt := none } ∧
    (handleAddComplaint 10 1 "Alice" "Gym" "Litter" (some "img") true
        AuthStatus.Unverified [cW]).tail = [cW] ∧
    (handleAddComplaint 10 1 "Alice" "Gym" "Litter" (some "img") true
        AuthStatus.Unverified [cW]).length = 1 + 1 ∧
    some cW.id ≠
      (handleAddComplaint 10 1 "Alice" "Gym" "Litter" (some "img") true
        AuthStatus.Unverified [cW]).head?.map Complaint.id :=
  ⟨(addComplaint_head_and_freshness 10 1 "Alice" "Gym" "Litter" (some "img")
      true AuthStatus.Unverified [cW]).1,
   (addComplaint_head_and_freshness 10 1 "Alice" "Gym" "Litter" (some "img")
      true AuthStatus.Unverified [cW]).2.1,
   (addComplaint_head_and_freshness 10 1 "Alice" "Gym" "Litter" (some "img")
      true AuthStatus.Unverified [cW]).2.2.1,
   (addComplaint_head_and_freshness 10 1 "Alice" "Gym" "Litter" (some "img")
      true AuthStatus.Unverified [cW]).2.2.2 (by decide) cW
      (List.mem_singleton.mpr rfl)⟩

end ZeroKachra
